import Mathlib

/-!
Formal model of the TestGuardian quiz platform's lockdown escalation state
machine and scoring backend, shallowly embedded from the sources.

Frontend model (`ComponentState`, `step`): embeds the stateful logic of
`src/frontend/src/pages/QuizAttempt.tsx`.  The React component is modelled as
an event-driven state machine: each `Event` is one macrotask of the JS event
loop (a DOM/IPC violation delivery, a `setTimeout`/`setInterval` callback
firing, the resolution of the in-flight submit request, a user click).  State
updates queued during one macrotask are flushed before the next event, so
handler closures observe the state as of the previous flush; within a single
macrotask (a `violationBatch`) all handler invocations share the same stale
closure snapshot while functional `setState` updaters accumulate — exactly
React's documented semantics for `useState`.  Ghost fields (`payloads`,
`shownWarnings`, `alerts`, `confirmPrompts`, `commandLog`) record the
side-effects (API calls, displayed warnings, `window.confirm` prompts, IPC
commands) without influencing behaviour.

Backend model (`attemptEndpoint`, `scoreResponses`): embeds the
`router.post('/:id/attempt')` handler of `src/backend/routes/quizRoutes.js`,
with the Prisma store modelled as in-memory lists.

Host window model (`allowQuizExitHandler`, `closeQuizWindowHandler`): embeds
the `ipcMain` handlers of the Electron main process.
-/

/-- JavaScript value of the `optionId` field of a `SelectedAnswer`:
`number | null | undefined`.  `QuizAttempt.tsx` distinguishes `null`
(unanswered MCQ) from `undefined` (non-MCQ question) with strict `===`. -/
inductive JsOpt where
  | undef
  | null
  | num (n : Nat)
deriving DecidableEq, Repr, BEq

/-- One violation record as produced in `QuizAttempt.tsx` / the Electron main
process (`{type, message, timestamp, severity}`). -/
structure Violation where
  type : String
  message : String
  timestamp : String
  severity : String
deriving DecidableEq, Repr, BEq

/-- A raw signal delivered to `handleWarningTrigger`: the browser-level
listeners pass only a reason string, the Electron `quiz-violation-detected`
listener additionally passes a `Violation` record. -/
structure RawViolation where
  reason : String
  record : Option Violation
deriving DecidableEq, Repr

/-- One element of the component's `selectedAnswers` state. -/
structure SelectedAnswer where
  questionId : Nat
  optionId : JsOpt
  textResponse : Option String
deriving DecidableEq, Repr

/-- One element of the `responses` array of the submit payload
(`{questionId, optionId}`); `optionId = none` models the JS `undefined`
that JSON serialization drops. -/
structure RespOut where
  questionId : Nat
  optionId : Option Nat
deriving DecidableEq, Repr

/-- Ghost record of one POST to `/api/quiz/:id/attempt` made by
`handleSubmitQuiz` (the fields of the request body that the claims are
about). -/
structure SubmitPayload where
  responses : List RespOut
  violations : List Violation
  status : String
deriving DecidableEq, Repr

/-- The `{score, maxScore, attemptId}` stored into `submissionResult` on a
successful submit response. -/
structure SubmissionOutcome where
  score : Nat
  maxScore : Nat
  attemptId : Nat
deriving DecidableEq, Repr

/-- Ghost record of one warning popup shown (`setShowWarning(true)`): either
an ordinary numbered warning or the final auto-submit warning. -/
inductive ShownWarning where
  | ordinary (count : Nat) (reason : String)
  | finalWarning
deriving DecidableEq, Repr

/-- IPC commands the renderer sends to the Electron main process via
`electronIPC.ts` (`allowQuizExit` sends `allow-quiz-exit`, `closeQuizWindow`
sends `close-quiz-window`). -/
inductive HostCommand where
  | allowQuizExit
  | closeQuizWindow
deriving DecidableEq, Repr

/-- `const MAX_WARNINGS = 3` (QuizAttempt.tsx line 97). -/
def MAX_WARNINGS : Nat := 3

/-- The 2000 ms `setTimeout` before the auto-submit fires
(QuizAttempt.tsx line 125). -/
def AUTO_SUBMIT_DELAY_MS : Nat := 2000

/-- The 4000 ms `setTimeout` that hides an ordinary warning popup
(QuizAttempt.tsx line 133). -/
def WARNING_HIDE_DELAY_MS : Nat := 4000

/-- The 4000 ms `setTimeout` before `closeQuizWindow()` after a successful
lockdown submission (QuizAttempt.tsx line 317). -/
def CLOSE_DELAY_MS : Nat := 4000

/-- The state of the `QuizAttempt` component (lockdown session), plus ghost
fields recording its observable side effects.  `pendingAutoSubmit` holds the
delays of scheduled auto-submit timeouts, `pendingClose` the delay of the
scheduled window-close timeout. -/
structure ComponentState where
  isLockdownMode : Bool
  isElectron : Bool
  warningCount : Nat
  showWarning : Bool
  warningMessage : String
  isAutoSubmitting : Bool
  isSubmitting : Bool
  violations : List Violation
  timeRemaining : Option Nat
  selectedAnswers : List SelectedAnswer
  submissionResult : Option SubmissionOutcome
  pendingAutoSubmit : List Nat
  pendingClose : Option Nat
  payloads : List SubmitPayload
  shownWarnings : List ShownWarning
  alerts : List String
  confirmPrompts : Nat
  commandLog : List HostCommand
deriving DecidableEq, Repr

/-- The early-return guard of `handleWarningTrigger`:
`if (!isLockdownMode || isSubmitting || isAutoSubmitting) return`. -/
def guardPasses (s : ComponentState) : Bool :=
  s.isLockdownMode && !s.isSubmitting && !s.isAutoSubmitting

/-- Render the warning message strings of `handleWarningTrigger`. -/
def renderWarning : ShownWarning → String
  | .ordinary n reason =>
      "Warning " ++ toString n ++ "/" ++ toString MAX_WARNINGS ++ ": " ++ reason ++
        ". After " ++ toString MAX_WARNINGS ++ " warnings, your quiz will be auto-submitted."
  | .finalWarning => "Final warning! Auto-submitting quiz..."

/-- One invocation of `handleWarningTrigger(reason, violation?)`.  `snap` is
the closure snapshot the guard reads (`isLockdownMode`, `isSubmitting`,
`isAutoSubmitting` as of the last render); `s` carries the accumulated
functional-updater state (`setViolations(prev => ...)`,
`setWarningCount(prev => ...)`). -/
def handleWarningTriggerOne (snap s : ComponentState) (rv : RawViolation) :
    ComponentState :=
  if !guardPasses snap then s
  else if MAX_WARNINGS ≤ s.warningCount + 1 then
    { s with violations := s.violations ++ rv.record.toList,
             warningCount := s.warningCount + 1,
             warningMessage := renderWarning .finalWarning,
             showWarning := true,
             shownWarnings := s.shownWarnings ++ [.finalWarning],
             isAutoSubmitting := true,
             pendingAutoSubmit := s.pendingAutoSubmit ++ [AUTO_SUBMIT_DELAY_MS] }
  else
    { s with violations := s.violations ++ rv.record.toList,
             warningCount := s.warningCount + 1,
             warningMessage := renderWarning (.ordinary (s.warningCount + 1) rv.reason),
             showWarning := true,
             shownWarnings := s.shownWarnings ++ [.ordinary (s.warningCount + 1) rv.reason] }

/-- Process a batch of violations delivered in one macrotask: all calls share
the closure snapshot `snap` while the updater state accumulates. -/
def processBatchAux (snap : ComponentState) (s : ComponentState) :
    List RawViolation → ComponentState
  | [] => s
  | rv :: rest => processBatchAux snap (handleWarningTriggerOne snap s rv) rest

/-- JS `optionId as number` after the `!== null` filter: a `num` survives as
a number, an `undefined` is dropped by JSON serialization. -/
def jsOptToNat : JsOpt → Option Nat
  | .num n => some n
  | _ => none

/-- The `responses` array built by `handleSubmitQuiz`:
`selectedAnswers.filter(ans => ans.optionId !== null).map(...)`.  Note the
strict `!==`: `undefined` entries (non-MCQ questions) pass the filter. -/
def payloadResponses (answers : List SelectedAnswer) : List RespOut :=
  (answers.filter (fun a => a.optionId != JsOpt.null)).map
    (fun a => { questionId := a.questionId, optionId := jsOptToNat a.optionId })

/-- The part of `handleSubmitQuiz` past the confirmation guard:
`setIsSubmitting(true)` and the POST to `/api/quiz/:id/attempt` with
`status: isAutoSubmitting ? 'auto_submitted' : 'submitted'`. -/
def doSubmit (s : ComponentState) : ComponentState :=
  { s with isSubmitting := true,
           payloads := s.payloads ++
             [{ responses := payloadResponses s.selectedAnswers,
                violations := s.violations,
                status := if s.isAutoSubmitting then "auto_submitted" else "submitted" }] }

/-- The unanswered-question count of `handleSubmitQuiz`:
`selectedAnswers.filter(ans => ans.optionId === null).length`. -/
def unansweredCount (s : ComponentState) : Nat :=
  (s.selectedAnswers.filter (fun a => a.optionId == JsOpt.null)).length

/-- `handleSubmitQuiz` up to and including the request.  `closureTime` is the
`timeRemaining` value captured in the invoking closure (`=== 0` is compared
with strict equality, so `null` also passes the `!== 0` test);
`confirmChoice` is the user's answer if `window.confirm` is shown. -/
def handleSubmitQuiz (s : ComponentState) (closureTime : Option Nat)
    (confirmChoice : Bool) : ComponentState :=
  if s.isSubmitting then s
  else if !(unansweredCount s == 0) && !(closureTime == some 0) && !s.isAutoSubmitting then
    (if confirmChoice then doSubmit { s with confirmPrompts := s.confirmPrompts + 1 }
     else { s with confirmPrompts := s.confirmPrompts + 1 })
  else doSubmit s

/-- One pending 2-second auto-submit timeout firing:
`setShowWarning(false); submitQuizRef.current()`.  The ref always holds the
latest `handleSubmitQuiz` closure, so the current state is the snapshot. -/
def fireOne (s : ComponentState) : ComponentState :=
  match s.pendingAutoSubmit with
  | [] => s
  | _ :: rest =>
      handleSubmitQuiz { s with pendingAutoSubmit := rest, showWarning := false }
        s.timeRemaining true

/-- Fire `n` pending auto-submit timeouts back to back.  All pending
auto-submit timeouts were scheduled in the single macrotask that crossed the
threshold, hence share a due time and fire consecutively. -/
def fireTimers : Nat → ComponentState → ComponentState
  | 0, s => s
  | n + 1, s => fireTimers n (fireOne s)

/-- One tick of the countdown `setInterval`: decrement, and at expiry
(`prev <= 1`) clear the interval, call `handleSubmitQuiz` — whose closure
still observes the pre-expiry value `timeRemaining = 1`, never `0` — and set
the counter to `0`.  A counter at `0` (or no timer) means no interval is
registered, so the tick is a no-op. -/
def tickStep (s : ComponentState) (choice : Bool) : ComponentState :=
  match s.timeRemaining with
  | none => s
  | some 0 => s
  | some (t + 1) =>
      if t = 0 then
        { handleSubmitQuiz s (some (t + 1)) choice with timeRemaining := some 0 }
      else
        { s with timeRemaining := some t }

/-- Resolution of the in-flight POST.  Success stores `submissionResult`
(the `finally` clears `isSubmitting`), and the `submissionResult` effect in
Electron lockdown mode immediately sends `allow-quiz-exit` and schedules
`close-quiz-window` after 4 seconds.  Failure alerts a retry message and the
`finally` clears `isSubmitting`.  Without an in-flight request (`isSubmitting`
clear) there is nothing to resolve. -/
def resolveStep (s : ComponentState) (ok : Bool) (sc mx aid : Nat) :
    ComponentState :=
  if !s.isSubmitting then s
  else if ok then
    (if s.isLockdownMode && s.isElectron then
      { s with isSubmitting := false,
               submissionResult := some { score := sc, maxScore := mx, attemptId := aid },
               commandLog := s.commandLog ++ [HostCommand.allowQuizExit],
               pendingClose := some CLOSE_DELAY_MS }
     else
      { s with isSubmitting := false,
               submissionResult := some { score := sc, maxScore := mx, attemptId := aid } })
  else
    { s with isSubmitting := false,
             alerts := s.alerts ++ ["Failed to submit quiz. Please try again."] }

/-- The scheduled 4-second close timeout firing: send `close-quiz-window`. -/
def closeStep (s : ComponentState) : ComponentState :=
  match s.pendingClose with
  | none => s
  | some _ => { s with pendingClose := none,
                       commandLog := s.commandLog ++ [HostCommand.closeQuizWindow] }

/-- One macrotask of the quiz session. -/
inductive Event where
  | violationBatch (batch : List RawViolation)
  | autoSubmitFire
  | hideWarningFire
  | countdownTick (confirmChoice : Bool)
  | manualSubmit (confirmChoice : Bool)
  | submitResolve (ok : Bool) (score maxScore attemptId : Nat)
  | closeTimerFire
  | clearHistory
deriving DecidableEq, Repr

/-- The transition function of the modelled component.  Each case embeds the
corresponding handler of `QuizAttempt.tsx`:
violation delivery (`handleWarningTrigger`), the 2 s auto-submit timeout, the
4 s warning-hide timeout, one tick of the countdown interval (which at expiry
calls `handleSubmitQuiz` from the closure where `timeRemaining` still holds
the pre-expiry value), a manual submit click, the resolution of the in-flight
POST (success stores `submissionResult` and — in Electron lockdown mode —
runs the release effect `allowQuizExit(); setTimeout(closeQuizWindow, 4000)`;
failure alerts and, via `finally`, clears `isSubmitting`), the 4 s close
timeout, and the Clear History button (`setViolations([])`). -/
def step (s : ComponentState) : Event → ComponentState
  | .violationBatch batch => processBatchAux s s batch
  | .autoSubmitFire => fireTimers s.pendingAutoSubmit.length s
  | .hideWarningFire => { s with showWarning := false }
  | .countdownTick choice => tickStep s choice
  | .manualSubmit choice => handleSubmitQuiz s s.timeRemaining choice
  | .submitResolve ok sc mx aid => resolveStep s ok sc mx aid
  | .closeTimerFire => closeStep s
  | .clearHistory => { s with violations := [] }

/-- Run a sequence of events. -/
def run (s : ComponentState) (events : List Event) : ComponentState :=
  events.foldl step s

/-- The component state right after the quiz loaded: counters at zero, no
popup, no violations, timer initialised from the quiz duration. -/
def initState (lockdown electron : Bool) (answers : List SelectedAnswer)
    (timer : Option Nat) : ComponentState :=
  { isLockdownMode := lockdown
    isElectron := electron
    warningCount := 0
    showWarning := false
    warningMessage := ""
    isAutoSubmitting := false
    isSubmitting := false
    violations := []
    timeRemaining := timer
    selectedAnswers := answers
    submissionResult := none
    pendingAutoSubmit := []
    pendingClose := none
    payloads := []
    shownWarnings := []
    alerts := []
    confirmPrompts := 0
    commandLog := [] }

/-- The escalation phases of the specification (§4.2). -/
inductive Phase where
  | Active
  | Warning
  | Escalating
  | Submitting
  | Terminated
deriving DecidableEq, Repr

/-- Map the component state onto the spec's phase vocabulary:
`Terminated` once a submission result is stored, `Submitting` while the POST
is in flight, `Escalating` during the auto-submit grace period
(`isAutoSubmitting` set, request not yet sent), `Warning` while a warning
popup is displayed, else `Active`. -/
def phaseOf (s : ComponentState) : Phase :=
  if s.submissionResult.isSome then .Terminated
  else if s.isSubmitting then .Submitting
  else if s.isAutoSubmitting then .Escalating
  else if s.showWarning then .Warning
  else .Active

/-- Left-to-right scan of the host command log: `true` iff no
`closeQuizWindow` occurs before an `allowQuizExit` has been issued.  The
second argument is whether a release has already been seen. -/
def releaseBeforeClose : List HostCommand → Bool → Bool
  | [], _ => true
  | .allowQuizExit :: rest, _ => releaseBeforeClose rest true
  | .closeQuizWindow :: rest, seen => seen && releaseBeforeClose rest seen

/-- A scheduled close delay is either absent or the fixed 4-second value. -/
def closeDelayOk : Option Nat → Bool
  | none => true
  | some d => d == CLOSE_DELAY_MS

/-- Whether the first character list starts the second one. -/
def leadsWith : List Char → List Char → Bool
  | [], _ => true
  | _ :: _, [] => false
  | a :: as, b :: bs => a == b && leadsWith as bs

/-- Whether `pat` occurs contiguously inside `l`. -/
def listHasSub (pat : List Char) : List Char → Bool
  | [] => leadsWith pat []
  | c :: rest => leadsWith pat (c :: rest) || listHasSub pat rest

/-- Substring test on the underlying character lists. -/
def containsSub (s pat : String) : Bool :=
  listHasSub pat.data s.data

/-- A shown warning respects the threshold: ordinary warnings are numbered
strictly below `MAX_WARNINGS`. -/
def warningBelowMax : ShownWarning → Bool
  | .ordinary n _ => decide (n < MAX_WARNINGS)
  | .finalWarning => true

/-- No event of the trace is the resolution of the submit request. -/
def noResolve (tr : List Event) : Bool :=
  tr.all fun e => match e with
    | .submitResolve _ _ _ _ => false
    | _ => true

/-! ## Electron main process (host window controller) -/

/-- The mutable window flags of the lockdown `BrowserWindow` in the Electron
main process. -/
structure HostWindow where
  kiosk : Bool
  fullscreen : Bool
  closable : Bool
  alwaysOnTop : Bool
  allowExit : Bool
  destroyed : Bool
deriving DecidableEq, Repr

/-- The `ipcMain.on('allow-quiz-exit')` handler: set `allowExit`, disable
kiosk, exit fullscreen, make closable, remove always-on-top. -/
def allowQuizExitHandler (w : HostWindow) : HostWindow :=
  if w.destroyed then w
  else { w with allowExit := true, kiosk := false, fullscreen := false,
                closable := true, alwaysOnTop := false }

/-- The `ipcMain.on('close-quiz-window')` handler: force-close the window. -/
def closeQuizWindowHandler (w : HostWindow) : HostWindow :=
  if w.destroyed then w else { w with destroyed := true }

/-! ## Backend: `router.post('/:id/attempt')` of quizRoutes.js -/

/-- A stored MCQ option row. -/
structure StoredOption where
  id : Nat
  isCorrect : Bool
deriving DecidableEq, Repr

/-- A stored question row with its options. -/
structure StoredQuestion where
  id : Nat
  points : Nat
  questionType : String
  options : List StoredOption
deriving DecidableEq, Repr

/-- A stored quiz row with its questions. -/
structure StoredQuiz where
  id : Nat
  questions : List StoredQuestion
deriving DecidableEq, Repr

/-- A stored attempt row. -/
structure StoredAttempt where
  id : Nat
  userId : Nat
  quizId : Nat
  score : Nat
  status : String
deriving DecidableEq, Repr

/-- A stored response row. -/
structure StoredResponse where
  attemptId : Nat
  questionId : Nat
  selectedOptionId : Option Nat
deriving DecidableEq, Repr

/-- A stored warning row (one per submitted violation). -/
structure StoredWarning where
  attemptId : Nat
  userId : Nat
  warningType : String
deriving DecidableEq, Repr

/-- The relevant tables of the Prisma database. -/
structure Db where
  attempts : List StoredAttempt
  quizzes : List StoredQuiz
  responses : List StoredResponse
  warnings : List StoredWarning
  nextAttemptId : Nat
deriving DecidableEq, Repr

/-- One element of the request's `responses` array. -/
structure ReqResponse where
  questionId : Nat
  optionId : Option Nat
  textResponse : Option String
deriving DecidableEq, Repr

/-- The request body of the attempt endpoint.  `userId = 0` models a falsy
`userId` (the `!userId` validation); `responses` is always an array here
because the client sends one. -/
structure AttemptBody where
  userId : Nat
  responses : List ReqResponse
  violations : List Violation
  status : String
deriving DecidableEq, Repr

/-- The HTTP outcome of the attempt endpoint. -/
inductive ApiResult where
  | created (attemptId score maxScore violationsSaved : Nat)
  | badRequest (msg : String)
  | notFound (msg : String)
deriving DecidableEq, Repr

/-- The scoring loop of the attempt endpoint: fold over the submitted
responses, skipping those whose `questionId` matches no question
(`if (!question) continue`), accumulating `(totalScore, maxScore)`.
`maxScore` grows by the question's points for every matched response; the
score grows only for an MCQ response whose selected option is marked
correct (`selectedOption?.isCorrect || false`). -/
def scoreStep (questions : List StoredQuestion) (acc : Nat × Nat)
    (r : ReqResponse) : Nat × Nat :=
  match questions.find? (fun q => q.id == r.questionId) with
  | none => acc
  | some q =>
      let isCorrect :=
        if q.questionType == "mcq" then
          match r.optionId with
          | some oid =>
              ((q.options.find? (fun o => o.id == oid)).map
                StoredOption.isCorrect).getD false
          | none => false
        else false
      (acc.1 + (if isCorrect then q.points else 0), acc.2 + q.points)

def scoreResponses (questions : List StoredQuestion)
    (responses : List ReqResponse) : Nat × Nat :=
  responses.foldl (scoreStep questions) (0, 0)

/-- The stored-response rows created for one attempt. -/
def responseRows (attemptId : Nat) (responses : List ReqResponse) :
    List StoredResponse :=
  responses.map fun r =>
    { attemptId := attemptId, questionId := r.questionId,
      selectedOptionId := r.optionId }

/-- The stored-warning rows created for one attempt. -/
def warningRows (attemptId userId : Nat) (violations : List Violation) :
    List StoredWarning :=
  violations.map fun v =>
    { attemptId := attemptId, userId := userId, warningType := v.type }

/-- `router.post('/:id/attempt')`: validate, reject a duplicate attempt for
the same (student, quiz) pair, look the quiz up, then in one transaction
create the attempt, score the responses, store them, store the violations as
warnings, and answer `{attemptId, score, maxScore, violationsSaved}`. -/
def attemptEndpoint (db : Db) (quizId : Nat) (body : AttemptBody) :
    ApiResult × Db :=
  if body.userId == 0 then
    (.badRequest "User ID and responses array are required", db)
  else
    match db.attempts.find?
        (fun a => a.userId == body.userId && a.quizId == quizId) with
    | some _ =>
        (.badRequest "You have already attempted this quiz. Multiple attempts are not allowed.",
         db)
    | none =>
        match db.quizzes.find? (fun q => q.id == quizId) with
        | none => (.notFound "Quiz not found", db)
        | some quiz =>
            let attemptId := db.nextAttemptId
            let sc := scoreResponses quiz.questions body.responses
            let newAttempt : StoredAttempt :=
              { id := attemptId, userId := body.userId, quizId := quizId,
                score := sc.1,
                status := if body.status == "auto_submitted"
                          then "auto_submitted" else "submitted" }
            (.created attemptId sc.1 sc.2 body.violations.length,
             { db with
                attempts := db.attempts ++ [newAttempt],
                responses := db.responses ++ responseRows attemptId body.responses,
                warnings := db.warnings ++
                  warningRows attemptId body.userId body.violations,
                nextAttemptId := db.nextAttemptId + 1 })

/-! ## Concrete inputs used by witnesses and counterexamples -/

/-- A browser-level blur violation (reason only, no record). -/
def blurViolation : RawViolation :=
  { reason := "Switching away from the quiz window is not allowed", record := none }

/-- A host-level window-switch violation, as built in the Electron main
process `blur` handler. -/
def hostBlurRecord : Violation :=
  { type := "window_switch",
    message := "Attempted to switch to another window (Alt+Tab detected)",
    timestamp := "10:00:00 AM", severity := "high" }

/-- The host-level violation delivered through `onQuizViolationDetected`. -/
def hostBlurViolation : RawViolation :=
  { reason := hostBlurRecord.message, record := some hostBlurRecord }

/-- A fully answered single-question answer sheet. -/
def answeredSheet : List SelectedAnswer :=
  [{ questionId := 1, optionId := JsOpt.num 10, textResponse := none }]

/-- An answer sheet with one unanswered MCQ (`optionId` still `null`). -/
def unansweredSheet : List SelectedAnswer :=
  [{ questionId := 1, optionId := JsOpt.null, textResponse := none }]

/-- A lockdown Electron session over `answeredSheet` with no countdown. -/
def demoInit : ComponentState := initState true true answeredSheet none

/-- The questions of the round-trip example: q1 worth 2 points (option 10
correct, option 11 not), q2 worth 3 points (option 20 correct, option 21
not). -/
def demoQuestions : List StoredQuestion :=
  [{ id := 1, points := 2, questionType := "mcq",
     options := [{ id := 10, isCorrect := true },
                 { id := 11, isCorrect := false }] },
   { id := 2, points := 3, questionType := "mcq",
     options := [{ id := 20, isCorrect := true },
                 { id := 21, isCorrect := false }] }]

/-- The database for the round-trip example: one quiz holding
`demoQuestions` and no prior attempts. -/
def demoDb : Db :=
  { attempts := []
    quizzes := [{ id := 1, questions := demoQuestions }]
    responses := []
    warnings := []
    nextAttemptId := 1 }

/-- The round-trip request: q1 answered with the correct option 10, q2 with
the incorrect option 21. -/
def demoBody : AttemptBody :=
  { userId := 7
    responses :=
      [{ questionId := 1, optionId := some 10, textResponse := none },
       { questionId := 2, optionId := some 21, textResponse := none }]
    violations := []
    status := "submitted" }

/-- `demoDb` after user 7 already stored an attempt for quiz 1. -/
def demoDbDup : Db :=
  { demoDb with
      attempts := [{ id := 1, userId := 7, quizId := 1, score := 2,
                     status := "submitted" }],
      nextAttemptId := 2 }

/-- An extra question that no response of `demoBody` names. -/
def demoExtraQuestion : StoredQuestion :=
  { id := 99, points := 100, questionType := "mcq",
    options := [{ id := 990, isCorrect := true }] }

/-- Invariant for the at-most-one-submission argument: while the submit
request has never resolved, at most one POST has been made, and whenever
`isSubmitting` is clear no POST has been made yet. -/
def submitOnceInv (s : ComponentState) : Prop :=
  s.payloads.length ≤ 1 ∧ (s.isSubmitting = false → s.payloads = [])

/-- Invariant for the lockdown release ordering: the command log never shows
a close before a release, a scheduled close implies a release was already
issued, and any scheduled close delay is the fixed 4-second one. -/
def releaseInv (s : ComponentState) : Prop :=
  releaseBeforeClose s.commandLog false = true
  ∧ (s.pendingClose.isSome = true → HostCommand.allowQuizExit ∈ s.commandLog)
  ∧ closeDelayOk s.pendingClose = true

/-- Prefixes of the three-violation escalation demo (violations in separate
macrotasks), ending with the grace-period timeout firing. -/
def c3T1 : List Event := [.violationBatch [blurViolation]]

def c3T2 : List Event := c3T1 ++ [.violationBatch [blurViolation]]

def c3T3 : List Event := c3T2 ++ [.violationBatch [blurViolation]]

def c3T4 : List Event := c3T3 ++ [.autoSubmitFire]

/-- A lockdown Electron session with 2 seconds on the clock. -/
def c1Init : ComponentState := initState true true answeredSheet (some 2)

/-- Four threshold-crossing violations in one macrotask, the auto-submit
timers firing, the POST succeeding, then the countdown running out. -/
def c1CounterTrace : List Event :=
  [.violationBatch [blurViolation, blurViolation, blurViolation, blurViolation],
   .autoSubmitFire, .submitResolve true 2 2 1,
   .countdownTick true, .countdownTick true]

/-- The same events but with the POST still unresolved. -/
def c1WitnessTrace : List Event :=
  [.violationBatch [blurViolation, blurViolation, blurViolation, blurViolation],
   .autoSubmitFire, .countdownTick true, .countdownTick true]

/-- Threshold breach, auto-submit, then the POST fails. -/
def c6CounterTrace : List Event :=
  [.violationBatch [blurViolation, blurViolation, blurViolation],
   .autoSubmitFire, .submitResolve false 0 0 0]

/-- Threshold breach and auto-submit with the POST still in flight. -/
def c6WitnessPrefix : List Event :=
  [.violationBatch [blurViolation, blurViolation, blurViolation], .autoSubmitFire]

/-- A lockdown session with one unanswered MCQ and 1 second on the clock. -/
def c7Init : ComponentState := initState true true unansweredSheet (some 1)

/-- One classified violation with a record, the Clear History click, then a
manual submission. -/
def c9CounterTrace : List Event :=
  [.violationBatch [hostBlurViolation], .clearHistory, .manualSubmit true]

/-! ## Helper lemmas about `handleWarningTrigger` batches -/

theorem hwt_guard_false (snap s : ComponentState) (rv : RawViolation)
    (h : guardPasses snap = false) : handleWarningTriggerOne snap s rv = s := by
  unfold handleWarningTriggerOne
  simp [h]

theorem pb_guard_false (snap : ComponentState) (batch : List RawViolation)
    (h : guardPasses snap = false) :
    ∀ s, processBatchAux snap s batch = s := by
  induction batch with
  | nil => intro s; rfl
  | cons rv rest ih =>
      intro s
      show processBatchAux snap (handleWarningTriggerOne snap s rv) rest = s
      rw [hwt_guard_false snap s rv h, ih s]

theorem hwt_fields (snap s : ComponentState) (rv : RawViolation) :
    (handleWarningTriggerOne snap s rv).commandLog = s.commandLog
    ∧ (handleWarningTriggerOne snap s rv).pendingClose = s.pendingClose
    ∧ (handleWarningTriggerOne snap s rv).payloads = s.payloads
    ∧ (handleWarningTriggerOne snap s rv).isSubmitting = s.isSubmitting := by
  unfold handleWarningTriggerOne
  split
  · exact ⟨rfl, rfl, rfl, rfl⟩
  · split
    · exact ⟨rfl, rfl, rfl, rfl⟩
    · exact ⟨rfl, rfl, rfl, rfl⟩

theorem pb_fields (snap : ComponentState) (batch : List RawViolation) :
    ∀ s, (processBatchAux snap s batch).commandLog = s.commandLog
    ∧ (processBatchAux snap s batch).pendingClose = s.pendingClose
    ∧ (processBatchAux snap s batch).payloads = s.payloads
    ∧ (processBatchAux snap s batch).isSubmitting = s.isSubmitting := by
  induction batch with
  | nil => intro s; exact ⟨rfl, rfl, rfl, rfl⟩
  | cons rv rest ih =>
      intro s
      have h1 := hwt_fields snap s rv
      have h2 := ih (handleWarningTriggerOne snap s rv)
      exact ⟨h2.1.trans h1.1, h2.2.1.trans h1.2.1,
             h2.2.2.1.trans h1.2.2.1, h2.2.2.2.trans h1.2.2.2⟩

theorem hwt_count_le (snap s : ComponentState) (rv : RawViolation) :
    s.warningCount ≤ (handleWarningTriggerOne snap s rv).warningCount := by
  unfold handleWarningTriggerOne
  split
  · exact Nat.le_refl _
  · split
    · exact Nat.le_succ _
    · exact Nat.le_succ _

theorem pb_count_le (snap : ComponentState) (batch : List RawViolation) :
    ∀ s, s.warningCount ≤ (processBatchAux snap s batch).warningCount := by
  induction batch with
  | nil => intro s; exact Nat.le_refl _
  | cons rv rest ih =>
      intro s
      exact (hwt_count_le snap s rv).trans (ih (handleWarningTriggerOne snap s rv))

theorem hwt_count_guard (snap s : ComponentState) (rv : RawViolation)
    (h : guardPasses snap = true) :
    (handleWarningTriggerOne snap s rv).warningCount = s.warningCount + 1 := by
  unfold handleWarningTriggerOne
  simp only [h, Bool.not_true, Bool.false_eq_true, if_false]
  split
  · rfl
  · rfl

theorem pb_count_guard (snap : ComponentState) (batch : List RawViolation)
    (h : guardPasses snap = true) :
    ∀ s, (processBatchAux snap s batch).warningCount
      = s.warningCount + batch.length := by
  induction batch with
  | nil => intro s; rfl
  | cons rv rest ih =>
      intro s
      show (processBatchAux snap (handleWarningTriggerOne snap s rv) rest).warningCount = _
      rw [ih (handleWarningTriggerOne snap s rv), hwt_count_guard snap s rv h]
      simp [List.length_cons]
      omega

theorem hwt_auto_mono (snap s : ComponentState) (rv : RawViolation)
    (h : s.isAutoSubmitting = true) :
    (handleWarningTriggerOne snap s rv).isAutoSubmitting = true := by
  unfold handleWarningTriggerOne
  split
  · exact h
  · split
    · rfl
    · exact h

theorem pb_auto_mono (snap : ComponentState) (batch : List RawViolation) :
    ∀ s, s.isAutoSubmitting = true →
      (processBatchAux snap s batch).isAutoSubmitting = true := by
  induction batch with
  | nil => intro s h; exact h
  | cons rv rest ih =>
      intro s h
      exact ih (handleWarningTriggerOne snap s rv) (hwt_auto_mono snap s rv h)

theorem hwt_violations (snap s : ComponentState) (rv : RawViolation) :
    (handleWarningTriggerOne snap s rv).violations
      = s.violations ++ (if guardPasses snap then rv.record.toList else []) := by
  unfold handleWarningTriggerOne
  by_cases hg : guardPasses snap
  · simp only [hg, Bool.not_true, Bool.false_eq_true, if_false, if_true]
    split
    · rfl
    · rfl
  · simp only [Bool.not_eq_true] at hg
    simp [hg]

theorem pb_violations (snap : ComponentState) (batch : List RawViolation) :
    ∀ s, (processBatchAux snap s batch).violations
      = s.violations
        ++ (if guardPasses snap then batch.filterMap RawViolation.record else []) := by
  induction batch with
  | nil => intro s; simp [processBatchAux]
  | cons rv rest ih =>
      intro s
      show (processBatchAux snap (handleWarningTriggerOne snap s rv) rest).violations = _
      rw [ih (handleWarningTriggerOne snap s rv), hwt_violations]
      by_cases hg : guardPasses snap
      · cases hr : rv.record <;>
          simp [hg, hr, List.filterMap_cons, List.append_assoc]
      · simp only [Bool.not_eq_true] at hg
        simp [hg]

theorem hwt_allOk (snap s : ComponentState) (rv : RawViolation)
    (h : s.shownWarnings.all warningBelowMax = true) :
    (handleWarningTriggerOne snap s rv).shownWarnings.all warningBelowMax = true := by
  unfold handleWarningTriggerOne
  split
  · exact h
  · split
    · simp [List.all_append, warningBelowMax, h]
    · next h2 =>
        simp [List.all_append, warningBelowMax, h]
        exact Nat.lt_of_not_le h2

theorem pb_allOk (snap : ComponentState) (batch : List RawViolation) :
    ∀ s, s.shownWarnings.all warningBelowMax = true →
      (processBatchAux snap s batch).shownWarnings.all warningBelowMax = true := by
  induction batch with
  | nil => intro s h; exact h
  | cons rv rest ih =>
      intro s h
      exact ih (handleWarningTriggerOne snap s rv) (hwt_allOk snap s rv h)

theorem phase_accepting (s : ComponentState) (hL : s.isLockdownMode = true)
    (h : phaseOf s = Phase.Active ∨ phaseOf s = Phase.Warning) :
    guardPasses s = true := by
  unfold phaseOf at h
  unfold guardPasses
  by_cases h1 : s.submissionResult.isSome = true
  · simp [h1] at h
  · by_cases h2 : s.isSubmitting = true
    · simp [h1, h2] at h
    · by_cases h3 : s.isAutoSubmitting = true
      · simp [h1, h2, h3] at h
      · simp only [Bool.not_eq_true] at h2 h3
        simp [hL, h2, h3]

/-! ## Helper lemmas about `handleSubmitQuiz` and the timers -/

theorem hsq_fields (s : ComponentState) (t : Option Nat) (c : Bool) :
    (handleSubmitQuiz s t c).commandLog = s.commandLog
    ∧ (handleSubmitQuiz s t c).pendingClose = s.pendingClose
    ∧ (handleSubmitQuiz s t c).warningCount = s.warningCount
    ∧ (handleSubmitQuiz s t c).violations = s.violations
    ∧ (handleSubmitQuiz s t c).shownWarnings = s.shownWarnings
    ∧ (handleSubmitQuiz s t c).isAutoSubmitting = s.isAutoSubmitting
    ∧ (handleSubmitQuiz s t c).timeRemaining = s.timeRemaining
    ∧ (handleSubmitQuiz s t c).submissionResult = s.submissionResult := by
  unfold handleSubmitQuiz doSubmit
  split
  · exact ⟨rfl, rfl, rfl, rfl, rfl, rfl, rfl, rfl⟩
  · split
    · split
      · exact ⟨rfl, rfl, rfl, rfl, rfl, rfl, rfl, rfl⟩
      · exact ⟨rfl, rfl, rfl, rfl, rfl, rfl, rfl, rfl⟩
    · exact ⟨rfl, rfl, rfl, rfl, rfl, rfl, rfl, rfl⟩

theorem fireOne_fields (s : ComponentState) :
    (fireOne s).commandLog = s.commandLog
    ∧ (fireOne s).pendingClose = s.pendingClose
    ∧ (fireOne s).warningCount = s.warningCount
    ∧ (fireOne s).violations = s.violations
    ∧ (fireOne s).shownWarnings = s.shownWarnings
    ∧ (fireOne s).isAutoSubmitting = s.isAutoSubmitting := by
  unfold fireOne
  split
  · exact ⟨rfl, rfl, rfl, rfl, rfl, rfl⟩
  · refine ⟨(hsq_fields _ _ _).1, (hsq_fields _ _ _).2.1, (hsq_fields _ _ _).2.2.1,
      (hsq_fields _ _ _).2.2.2.1, (hsq_fields _ _ _).2.2.2.2.1,
      (hsq_fields _ _ _).2.2.2.2.2.1⟩

theorem fireTimers_fields (n : Nat) :
    ∀ s : ComponentState,
    (fireTimers n s).commandLog = s.commandLog
    ∧ (fireTimers n s).pendingClose = s.pendingClose
    ∧ (fireTimers n s).warningCount = s.warningCount
    ∧ (fireTimers n s).violations = s.violations
    ∧ (fireTimers n s).shownWarnings = s.shownWarnings
    ∧ (fireTimers n s).isAutoSubmitting = s.isAutoSubmitting := by
  induction n with
  | zero => intro s; exact ⟨rfl, rfl, rfl, rfl, rfl, rfl⟩
  | succ n ih =>
      intro s
      have h1 := fireOne_fields s
      have h2 := ih (fireOne s)
      exact ⟨h2.1.trans h1.1, h2.2.1.trans h1.2.1, h2.2.2.1.trans h1.2.2.1,
             h2.2.2.2.1.trans h1.2.2.2.1, h2.2.2.2.2.1.trans h1.2.2.2.2.1,
             h2.2.2.2.2.2.trans h1.2.2.2.2.2⟩

theorem hsq_once (s : ComponentState) (t : Option Nat) (c : Bool)
    (h : submitOnceInv s) : submitOnceInv (handleSubmitQuiz s t c) := by
  unfold submitOnceInv at h ⊢
  unfold handleSubmitQuiz doSubmit
  by_cases hs : s.isSubmitting = true
  · simp only [hs, if_true]
    exact ⟨h.1, fun hc => absurd hc (by decide)⟩
  · simp only [Bool.not_eq_true] at hs
    have hp : s.payloads = [] := h.2 hs
    simp only [hs, Bool.false_eq_true, if_false]
    split
    · split
      · constructor
        · simp [hp]
        · intro hcontra
          simp at hcontra
      · constructor
        · simp [hp]
        · intro _; exact hp
    · constructor
      · simp [hp]
      · intro hcontra
        simp at hcontra

theorem fireOne_once (s : ComponentState) (h : submitOnceInv s) :
    submitOnceInv (fireOne s) := by
  unfold fireOne
  split
  · exact h
  · exact hsq_once _ _ _ h

theorem fireTimers_once (n : Nat) :
    ∀ s : ComponentState, submitOnceInv s → submitOnceInv (fireTimers n s) := by
  induction n with
  | zero => intro s h; exact h
  | succ n ih => intro s h; exact ih (fireOne s) (fireOne_once s h)

theorem tick_once (s : ComponentState) (choice : Bool)
    (h : submitOnceInv s) : submitOnceInv (tickStep s choice) := by
  unfold tickStep
  split
  · exact h
  · exact h
  · split
    · have h2 := hsq_once s (some (0 + 1)) choice h
      unfold submitOnceInv at h2 ⊢
      exact h2
    · exact h

theorem close_once (s : ComponentState) (h : submitOnceInv s) :
    submitOnceInv (closeStep s) := by
  unfold closeStep
  split
  · exact h
  · exact h

theorem step_once (s : ComponentState) (e : Event)
    (he : noResolve [e] = true) (h : submitOnceInv s) :
    submitOnceInv (step s e) := by
  cases e with
  | violationBatch batch =>
      have hf := pb_fields s batch s
      unfold submitOnceInv at h ⊢
      rw [show step s (.violationBatch batch) = processBatchAux s s batch from rfl,
          hf.2.2.1, hf.2.2.2]
      exact h
  | autoSubmitFire => exact fireTimers_once _ s h
  | hideWarningFire => exact h
  | countdownTick choice =>
      have h2 := tick_once s choice h
      unfold submitOnceInv at h2 ⊢
      exact h2
  | manualSubmit choice => exact hsq_once s s.timeRemaining choice h
  | submitResolve ok sc mx aid => simp [noResolve] at he
  | closeTimerFire =>
      have h2 := close_once s h
      unfold submitOnceInv at h2 ⊢
      exact h2
  | clearHistory => exact h

theorem run_once (tr : List Event) :
    ∀ s : ComponentState, noResolve tr = true → submitOnceInv s →
      submitOnceInv (run s tr) := by
  induction tr with
  | nil => intro s _ h; exact h
  | cons e rest ih =>
      intro s hno h
      simp only [noResolve, List.all_cons, Bool.and_eq_true] at hno
      have he : noResolve [e] = true := by
        simp [noResolve, hno.1]
      exact ih (step s e) (by simp [noResolve, hno.2]) (step_once s e he h)

/-! ## Step- and run-level invariant lemmas -/

theorem tick_fields (s : ComponentState) (choice : Bool) :
    (tickStep s choice).commandLog = s.commandLog
    ∧ (tickStep s choice).pendingClose = s.pendingClose
    ∧ (tickStep s choice).warningCount = s.warningCount
    ∧ (tickStep s choice).violations = s.violations
    ∧ (tickStep s choice).shownWarnings = s.shownWarnings
    ∧ (tickStep s choice).isAutoSubmitting = s.isAutoSubmitting := by
  unfold tickStep
  split
  · exact ⟨rfl, rfl, rfl, rfl, rfl, rfl⟩
  · exact ⟨rfl, rfl, rfl, rfl, rfl, rfl⟩
  · split
    · refine ⟨(hsq_fields _ _ _).1, (hsq_fields _ _ _).2.1, (hsq_fields _ _ _).2.2.1,
        (hsq_fields _ _ _).2.2.2.1, (hsq_fields _ _ _).2.2.2.2.1,
        (hsq_fields _ _ _).2.2.2.2.2.1⟩
    · exact ⟨rfl, rfl, rfl, rfl, rfl, rfl⟩

theorem step_count_le (s : ComponentState) (e : Event) :
    s.warningCount ≤ (step s e).warningCount := by
  cases e with
  | violationBatch batch => exact pb_count_le s batch s
  | autoSubmitFire => exact Nat.le_of_eq ((fireTimers_fields _ s).2.2.1).symm
  | hideWarningFire => exact Nat.le_refl _
  | countdownTick choice => exact Nat.le_of_eq ((tick_fields s choice).2.2.1).symm
  | manualSubmit choice => exact Nat.le_of_eq ((hsq_fields s s.timeRemaining choice).2.2.1).symm
  | submitResolve ok sc mx aid =>
      show s.warningCount ≤ (resolveStep s ok sc mx aid).warningCount
      unfold resolveStep
      split
      · exact Nat.le_refl _
      · split
        · split
          · exact Nat.le_refl _
          · exact Nat.le_refl _
        · exact Nat.le_refl _
  | closeTimerFire =>
      show s.warningCount ≤ (closeStep s).warningCount
      unfold closeStep
      split
      · exact Nat.le_refl _
      · exact Nat.le_refl _
  | clearHistory => exact Nat.le_refl _

theorem run_count_le (tr : List Event) :
    ∀ s : ComponentState, s.warningCount ≤ (run s tr).warningCount := by
  induction tr with
  | nil => intro s; exact Nat.le_refl _
  | cons e rest ih =>
      intro s
      exact (step_count_le s e).trans (ih (step s e))

theorem resolve_fields (s : ComponentState) (ok : Bool) (sc mx aid : Nat) :
    (resolveStep s ok sc mx aid).warningCount = s.warningCount
    ∧ (resolveStep s ok sc mx aid).violations = s.violations
    ∧ (resolveStep s ok sc mx aid).shownWarnings = s.shownWarnings
    ∧ (resolveStep s ok sc mx aid).isAutoSubmitting = s.isAutoSubmitting := by
  unfold resolveStep
  split
  · exact ⟨rfl, rfl, rfl, rfl⟩
  · split
    · split
      · exact ⟨rfl, rfl, rfl, rfl⟩
      · exact ⟨rfl, rfl, rfl, rfl⟩
    · exact ⟨rfl, rfl, rfl, rfl⟩

theorem close_fields (s : ComponentState) :
    (closeStep s).warningCount = s.warningCount
    ∧ (closeStep s).violations = s.violations
    ∧ (closeStep s).shownWarnings = s.shownWarnings
    ∧ (closeStep s).isAutoSubmitting = s.isAutoSubmitting := by
  unfold closeStep
  split
  · exact ⟨rfl, rfl, rfl, rfl⟩
  · exact ⟨rfl, rfl, rfl, rfl⟩

theorem step_auto_mono (s : ComponentState) (e : Event)
    (h : s.isAutoSubmitting = true) : (step s e).isAutoSubmitting = true := by
  cases e with
  | violationBatch batch => exact pb_auto_mono s batch s h
  | autoSubmitFire => exact ((fireTimers_fields _ s).2.2.2.2.2).trans h
  | hideWarningFire => exact h
  | countdownTick choice => exact ((tick_fields s choice).2.2.2.2.2).trans h
  | manualSubmit choice =>
      exact ((hsq_fields s s.timeRemaining choice).2.2.2.2.2.1).trans h
  | submitResolve ok sc mx aid => exact ((resolve_fields s ok sc mx aid).2.2.2).trans h
  | closeTimerFire => exact ((close_fields s).2.2.2).trans h
  | clearHistory => exact h

theorem run_auto_mono (tr : List Event) :
    ∀ s : ComponentState, s.isAutoSubmitting = true →
      (run s tr).isAutoSubmitting = true := by
  induction tr with
  | nil => intro s h; exact h
  | cons e rest ih => intro s h; exact ih (step s e) (step_auto_mono s e h)

theorem step_allOk (s : ComponentState) (e : Event)
    (h : s.shownWarnings.all warningBelowMax = true) :
    (step s e).shownWarnings.all warningBelowMax = true := by
  cases e with
  | violationBatch batch => exact pb_allOk s batch s h
  | autoSubmitFire =>
      show (fireTimers s.pendingAutoSubmit.length s).shownWarnings.all warningBelowMax = true
      rw [(fireTimers_fields _ s).2.2.2.2.1]; exact h
  | hideWarningFire => exact h
  | countdownTick choice =>
      show (tickStep s choice).shownWarnings.all warningBelowMax = true
      rw [(tick_fields s choice).2.2.2.2.1]; exact h
  | manualSubmit choice =>
      show (handleSubmitQuiz s s.timeRemaining choice).shownWarnings.all warningBelowMax = true
      rw [(hsq_fields s s.timeRemaining choice).2.2.2.2.1]; exact h
  | submitResolve ok sc mx aid =>
      show (resolveStep s ok sc mx aid).shownWarnings.all warningBelowMax = true
      rw [(resolve_fields s ok sc mx aid).2.2.1]; exact h
  | closeTimerFire =>
      show (closeStep s).shownWarnings.all warningBelowMax = true
      rw [(close_fields s).2.2.1]; exact h
  | clearHistory => exact h

theorem run_allOk (tr : List Event) :
    ∀ s : ComponentState, s.shownWarnings.all warningBelowMax = true →
      (run s tr).shownWarnings.all warningBelowMax = true := by
  induction tr with
  | nil => intro s h; exact h
  | cons e rest ih => intro s h; exact ih (step s e) (step_allOk s e h)

/-! ## Lockdown release ordering -/

theorem scan_append_allow (l : List HostCommand) :
    ∀ b : Bool, releaseBeforeClose l b = true →
      releaseBeforeClose (l ++ [HostCommand.allowQuizExit]) b = true := by
  induction l with
  | nil => intro b _; rfl
  | cons c rest ih =>
      intro b h
      cases c with
      | allowQuizExit =>
          show releaseBeforeClose (rest ++ [HostCommand.allowQuizExit]) true = true
          exact ih true h
      | closeQuizWindow =>
          simp only [releaseBeforeClose, Bool.and_eq_true] at h
          show (b && releaseBeforeClose (rest ++ [HostCommand.allowQuizExit]) b) = true
          simp only [Bool.and_eq_true]
          exact ⟨h.1, ih b h.2⟩

theorem scan_append_close_seen (l : List HostCommand) :
    releaseBeforeClose l true = true →
      releaseBeforeClose (l ++ [HostCommand.closeQuizWindow]) true = true := by
  induction l with
  | nil => intro _; rfl
  | cons c rest ih =>
      intro h
      cases c with
      | allowQuizExit =>
          show releaseBeforeClose (rest ++ [HostCommand.closeQuizWindow]) true = true
          exact ih h
      | closeQuizWindow =>
          simp only [releaseBeforeClose, Bool.and_eq_true] at h
          show (true && releaseBeforeClose (rest ++ [HostCommand.closeQuizWindow]) true) = true
          simp only [Bool.true_and]
          exact ih h.2

theorem scan_append_close_mem (l : List HostCommand) :
    ∀ b : Bool, releaseBeforeClose l b = true →
      HostCommand.allowQuizExit ∈ l →
      releaseBeforeClose (l ++ [HostCommand.closeQuizWindow]) b = true := by
  induction l with
  | nil => intro b _ hm; cases hm
  | cons c rest ih =>
      intro b h hm
      cases c with
      | allowQuizExit =>
          show releaseBeforeClose (rest ++ [HostCommand.closeQuizWindow]) true = true
          exact scan_append_close_seen rest h
      | closeQuizWindow =>
          simp only [releaseBeforeClose, Bool.and_eq_true] at h
          have hb : b = true := h.1
          subst hb
          show (true && releaseBeforeClose (rest ++ [HostCommand.closeQuizWindow]) true) = true
          simp only [Bool.true_and]
          exact scan_append_close_seen rest h.2

theorem releaseInv_step (s : ComponentState) (e : Event) (h : releaseInv s) :
    releaseInv (step s e) := by
  cases e with
  | violationBatch batch =>
      have hf := pb_fields s batch s
      unfold releaseInv at h ⊢
      rw [show step s (.violationBatch batch) = processBatchAux s s batch from rfl,
          hf.1, hf.2.1]
      exact h
  | autoSubmitFire =>
      have hf := fireTimers_fields s.pendingAutoSubmit.length s
      unfold releaseInv at h ⊢
      rw [show step s .autoSubmitFire = fireTimers s.pendingAutoSubmit.length s from rfl,
          hf.1, hf.2.1]
      exact h
  | hideWarningFire => exact h
  | countdownTick choice =>
      have hf := tick_fields s choice
      unfold releaseInv at h ⊢
      rw [show step s (.countdownTick choice) = tickStep s choice from rfl,
          hf.1, hf.2.1]
      exact h
  | manualSubmit choice =>
      have hf := hsq_fields s s.timeRemaining choice
      unfold releaseInv at h ⊢
      rw [show step s (.manualSubmit choice)
            = handleSubmitQuiz s s.timeRemaining choice from rfl,
          hf.1, hf.2.1]
      exact h
  | submitResolve ok sc mx aid =>
      show releaseInv (resolveStep s ok sc mx aid)
      unfold releaseInv at h ⊢
      unfold resolveStep
      split
      · exact h
      · split
        · split
          · refine ⟨scan_append_allow _ false h.1, ?_, ?_⟩
            · intro _
              exact List.mem_append.mpr (Or.inr (List.mem_singleton.mpr rfl))
            · simp [closeDelayOk]
          · exact h
        · exact h
  | closeTimerFire =>
      show releaseInv (closeStep s)
      unfold releaseInv at h ⊢
      unfold closeStep
      split
      · exact h
      · next d heq =>
          refine ⟨?_, ?_, ?_⟩
          · exact scan_append_close_mem _ false h.1 (h.2.1 (by rw [heq]; rfl))
          · intro hc
            simp at hc
          · rfl
  | clearHistory => exact h

theorem releaseInv_run (tr : List Event) :
    ∀ s : ComponentState, releaseInv s → releaseInv (run s tr) := by
  induction tr with
  | nil => intro s h; exact h
  | cons e rest ih => intro s h; exact ih (step s e) (releaseInv_step s e h)

theorem releaseInv_init (lockdown electron : Bool)
    (answers : List SelectedAnswer) (timer : Option Nat) :
    releaseInv (initState lockdown electron answers timer) := by
  refine ⟨rfl, ?_, rfl⟩
  intro hc
  simp [initState] at hc

/-! ## Backend scoring lemmas -/

theorem scoreStep_skip_head (q : StoredQuestion) (qs : List StoredQuestion)
    (acc : Nat × Nat) (r : ReqResponse) (h : r.questionId ≠ q.id) :
    scoreStep (q :: qs) acc r = scoreStep qs acc r := by
  unfold scoreStep
  rw [List.find?_cons_of_neg]
  intro hc
  have hc2 : (q.id == r.questionId) = true := hc
  exact absurd (eq_of_beq hc2).symm h

theorem score_foldl_skip (q : StoredQuestion) (qs : List StoredQuestion) :
    ∀ (rs : List ReqResponse) (acc : Nat × Nat),
      (∀ r ∈ rs, r.questionId ≠ q.id) →
      rs.foldl (scoreStep (q :: qs)) acc = rs.foldl (scoreStep qs) acc := by
  intro rs
  induction rs with
  | nil => intro acc _; rfl
  | cons r rest ih =>
      intro acc h
      simp only [List.foldl_cons]
      rw [scoreStep_skip_head q qs acc r (h r (List.mem_cons_self r rest))]
      exact ih _ (fun r' hr' => h r' (List.mem_cons_of_mem r hr'))

theorem scoreStep_no_question (qs : List StoredQuestion) (acc : Nat × Nat)
    (r : ReqResponse) (h : ∀ qq ∈ qs, qq.id ≠ r.questionId) :
    scoreStep qs acc r = acc := by
  unfold scoreStep
  have hn : qs.find? (fun qq => qq.id == r.questionId) = none := by
    rw [List.find?_eq_none]
    intro qq hq hc
    have hc2 : (qq.id == r.questionId) = true := hc
    exact h qq hq (eq_of_beq hc2)
  rw [hn]

theorem payloadResponses_cons (a : SelectedAnswer) (rest : List SelectedAnswer) :
    payloadResponses (a :: rest)
      = (if a.optionId != JsOpt.null then
          [{ questionId := a.questionId, optionId := jsOptToNat a.optionId }] else [])
        ++ payloadResponses rest := by
  unfold payloadResponses
  by_cases hopt : (a.optionId != JsOpt.null) = true
  · simp [List.filter_cons, hopt]
  · simp only [Bool.not_eq_true] at hopt
    simp [List.filter_cons, hopt]

theorem payload_skip_null :
    ∀ (answers : List SelectedAnswer) (qid : Nat),
      (∀ a ∈ answers, a.questionId = qid → a.optionId = JsOpt.null) →
      ∀ ro ∈ payloadResponses answers, ro.questionId ≠ qid := by
  intro answers
  induction answers with
  | nil => intro qid _ ro hro; cases hro
  | cons a rest ih =>
      intro qid h ro hro
      rw [payloadResponses_cons] at hro
      rcases List.mem_append.mp hro with h1 | h2
      · by_cases hopt : (a.optionId != JsOpt.null) = true
        · rw [if_pos hopt] at h1
          have hro2 := List.mem_singleton.mp h1
          intro hq
          have hq2 : a.questionId = qid := by
            rw [hro2] at hq
            exact hq
          have := h a (List.mem_cons_self a rest) hq2
          rw [this] at hopt
          exact absurd hopt (by decide)
        · rw [if_neg hopt] at h1
          cases h1
      · exact ih qid (fun a' ha' => h a' (List.mem_cons_of_mem a ha')) ro h2

/-! ## Claim theorems -/

/-- C1, counterexample: the claimed "submission invoked at most once per
session regardless of how many threshold-crossing violations or timer
expirations occur after Escalating/Submitting is entered" is false.  In a
lockdown session with 2 seconds left, four same-tick threshold-crossing
violations escalate, the auto-submit fires once, the POST succeeds — and
then the countdown (which the code never cancels) expires and re-invokes
`handleSubmitQuiz`, producing a second POST to the Scoring Service. -/
theorem C1_counterexample :
    (run c1Init c1CounterTrace).payloads.length = 2 := by decide

/-- C1, amended: in every lockdown session and every event sequence in which
the first submit request has not yet resolved, the submit call is invoked at
most once — in particular, any number of same-tick threshold-crossing
violations and timer expirations before the first response produce at most
one POST.  (A second invocation is only possible after the first POST has
resolved, because the countdown interval is not cancelled on submission.) -/
theorem C1_amended (lockdown electron : Bool) (answers : List SelectedAnswer)
    (timer : Option Nat) (tr : List Event) (h : noResolve tr = true) :
    (run (initState lockdown electron answers timer) tr).payloads.length ≤ 1 := by
  have hinit : submitOnceInv (initState lockdown electron answers timer) :=
    ⟨by simp [initState], fun _ => rfl⟩
  exact (run_once tr _ h hinit).1

/-- C1, witness: the amended theorem applied to the concrete resolve-free
trace with four same-tick threshold crossings and two countdown ticks. -/
theorem C1_witness :
    noResolve c1WitnessTrace = true
    ∧ (run (initState true true answeredSheet (some 2)) c1WitnessTrace).payloads.length ≤ 1 :=
  ⟨by decide, C1_amended true true answeredSheet (some 2) c1WitnessTrace (by decide)⟩

/-- C2: while a lockdown session is accepting violations (phase `Active` or
`Warning`), a batch of raw violation events delivered in one tick increments
`warningCount` by exactly the number of delivered events — with no
deduplication, so a browser-level and a host-level report of the same
physical action count twice — and `warningCount` never decreases under any
event or event sequence. -/
theorem C2_warning_counter :
    (∀ (s : ComponentState) (batch : List RawViolation),
        s.isLockdownMode = true →
        (phaseOf s = Phase.Active ∨ phaseOf s = Phase.Warning) →
        (step s (.violationBatch batch)).warningCount
          = s.warningCount + batch.length)
    ∧ (∀ (s : ComponentState) (e : Event),
        s.warningCount ≤ (step s e).warningCount)
    ∧ (∀ (s : ComponentState) (tr : List Event),
        s.warningCount ≤ (run s tr).warningCount) := by
  refine ⟨?_, step_count_le, ?_⟩
  · intro s batch hL hph
    have hg := phase_accepting s hL hph
    show (processBatchAux s s batch).warningCount = _
    exact pb_count_guard s batch hg s
  · intro s tr
    exact run_count_le tr s

/-- C2, witness: a same-tick pair — a browser-level blur and a host-level
blur for the same Alt-Tab — delivered to the fresh lockdown session
increments the counter by exactly 2. -/
theorem C2_witness :
    (step demoInit (.violationBatch [blurViolation, hostBlurViolation])).warningCount
      = demoInit.warningCount + 2 :=
  C2_warning_counter.1 demoInit [blurViolation, hostBlurViolation] rfl
    (Or.inl (by decide))

/-- C3: with `MAX_WARNINGS = 3`, the 1st and 2nd violations put the session
in the `Warning` phase with messages containing "1/3" and "2/3"; the 3rd
enters `Escalating` and schedules the fixed 2-second grace timeout, after
which the submit call is invoked exactly once (status `auto_submitted`); and
in every session and trace no ordinary warning numbered ≥ 3 is ever shown. -/
theorem C3_escalation_sequence :
    (phaseOf (run demoInit c3T1) = Phase.Warning
      ∧ containsSub (run demoInit c3T1).warningMessage "1/3" = true)
    ∧ (phaseOf (run demoInit c3T2) = Phase.Warning
      ∧ containsSub (run demoInit c3T2).warningMessage "2/3" = true)
    ∧ (phaseOf (run demoInit c3T3) = Phase.Escalating
      ∧ (run demoInit c3T3).pendingAutoSubmit = [AUTO_SUBMIT_DELAY_MS]
      ∧ AUTO_SUBMIT_DELAY_MS = 2000
      ∧ (run demoInit c3T3).payloads = [])
    ∧ (phaseOf (run demoInit c3T4) = Phase.Submitting
      ∧ (run demoInit c3T4).payloads.length = 1
      ∧ (run demoInit c3T4).payloads.map SubmitPayload.status = ["auto_submitted"])
    ∧ (∀ (lockdown electron : Bool) (answers : List SelectedAnswer)
        (timer : Option Nat) (tr : List Event),
        ((run (initState lockdown electron answers timer) tr).shownWarnings.all
          warningBelowMax) = true) := by
  refine ⟨by decide, by decide, by decide, by decide, ?_⟩
  intro lockdown electron answers timer tr
  exact run_allOk tr _ rfl

/-- C4: submitting `{q1: option 10 (correct, 2 pts), q2: option 21
(incorrect, 3 pts)}` to the attempt endpoint returns score 2 and
maxScore 5. -/
theorem C4_round_trip :
    (attemptEndpoint demoDb 1 demoBody).1 = ApiResult.created 1 2 5 0 := by decide

/-- C5: a submit for a (student, quiz) pair that already has a stored
attempt is rejected with the distinguishable duplicate-attempt error and the
database — attempts, responses, warnings, scores — is left unchanged. -/
theorem C5_duplicate_rejected (db : Db) (quizId : Nat) (body : AttemptBody)
    (a : StoredAttempt) (hu : body.userId ≠ 0)
    (hf : db.attempts.find?
        (fun x => x.userId == body.userId && x.quizId == quizId) = some a) :
    attemptEndpoint db quizId body
      = (ApiResult.badRequest
          "You have already attempted this quiz. Multiple attempts are not allowed.",
         db) := by
  unfold attemptEndpoint
  have hu2 : (body.userId == 0) = false := by
    simp [hu]
  rw [hu2, hf]
  simp

/-- C5, witness: the duplicate-rejection theorem applied to `demoDbDup`,
which already stores an attempt of user 7 for quiz 1. -/
theorem C5_witness :
    demoBody.userId ≠ 0
    ∧ attemptEndpoint demoDbDup 1 demoBody
      = (ApiResult.badRequest
          "You have already attempted this quiz. Multiple attempts are not allowed.",
         demoDbDup) :=
  ⟨by decide,
   C5_duplicate_rejected demoDbDup 1 demoBody
     { id := 1, userId := 7, quizId := 1, score := 2, status := "submitted" }
     (by decide) (by decide)⟩

/-- C6, counterexample: after a threshold breach, a failed POST does *not*
leave the submitting flag set — the `finally` clears `isSubmitting`, so the
phase is back to `Escalating`, not `Submitting` as claimed (the retry alert
is shown). -/
theorem C6_counterexample :
    (run demoInit c6CounterTrace).isSubmitting = false
    ∧ phaseOf (run demoInit c6CounterTrace) ≠ Phase.Submitting
    ∧ (run demoInit c6CounterTrace).alerts
      = ["Failed to submit quiz. Please try again."] := by decide

/-- C6, amended: on a failed POST the session surfaces the retryable alert
and the `finally` clears `isSubmitting` (the flag does not stay set);
`isAutoSubmitting` however is never cleared by any event sequence, and while
it is set violation batches are ignored entirely — so after a threshold
breach the machine never reverts to a state that accepts new violations. -/
theorem C6_amended :
    (∀ (s : ComponentState) (sc mx aid : Nat), s.isSubmitting = true →
        step s (.submitResolve false sc mx aid)
          = { s with isSubmitting := false,
                     alerts := s.alerts ++ ["Failed to submit quiz. Please try again."] })
    ∧ (∀ (s : ComponentState) (tr : List Event), s.isAutoSubmitting = true →
        (run s tr).isAutoSubmitting = true)
    ∧ (∀ (s : ComponentState) (batch : List RawViolation),
        s.isAutoSubmitting = true → step s (.violationBatch batch) = s) := by
  refine ⟨?_, ?_, ?_⟩
  · intro s sc mx aid hs
    show resolveStep s false sc mx aid = _
    unfold resolveStep
    simp [hs]
  · intro s tr h
    exact run_auto_mono tr s h
  · intro s batch h
    show processBatchAux s s batch = s
    have hg : guardPasses s = false := by
      simp [guardPasses, h]
    exact pb_guard_false s batch hg s

/-- C6, witness: the failure branch applied to the concrete in-flight state
reached by three violations and the auto-submit firing. -/
theorem C6_witness :
    (run demoInit c6WitnessPrefix).isSubmitting = true
    ∧ step (run demoInit c6WitnessPrefix) (.submitResolve false 0 0 0)
      = { (run demoInit c6WitnessPrefix) with
            isSubmitting := false,
            alerts := (run demoInit c6WitnessPrefix).alerts
              ++ ["Failed to submit quiz. Please try again."] } :=
  ⟨by decide, C6_amended.1 (run demoInit c6WitnessPrefix) 0 0 0 (by decide)⟩

/-- C7, counterexample: with one unanswered MCQ and the timer expiring, the
claimed behaviour ("reason tag `timeout`, confirmation prompt skipped") is
false: the handler — whose closure still sees `timeRemaining = 1` — shows
the unanswered-questions `window.confirm` prompt, and the payload it then
sends carries status `submitted`, not any timeout tag. -/
theorem C7_counterexample :
    (run c7Init [.countdownTick true]).confirmPrompts = 1
    ∧ (run c7Init [.countdownTick true]).payloads.map SubmitPayload.status
      = ["submitted"] := by decide

/-- C7, amended: at countdown expiry the submit handler is invoked with
status `submitted` (the code has no distinct timeout tag), and the
unanswered-questions confirmation is skipped only when no MCQ is unanswered
(or auto-submit is active): the expiry-time invocation observes the
pre-expiry closure value `timeRemaining = 1`, so with unanswered MCQs the
prompt is shown; a manual submit made after expiry (`timeRemaining = 0`)
does skip the prompt. -/
theorem C7_amended :
    (∀ (s : ComponentState) (choice : Bool),
        s.isSubmitting = false → s.isAutoSubmitting = false →
        s.timeRemaining = some 1 → unansweredCount s = 0 →
        (step s (.countdownTick choice)).payloads
            = s.payloads ++ [{ responses := payloadResponses s.selectedAnswers,
                               violations := s.violations, status := "submitted" }]
          ∧ (step s (.countdownTick choice)).confirmPrompts = s.confirmPrompts)
    ∧ (∀ (s : ComponentState) (choice : Bool),
        s.isSubmitting = false → s.isAutoSubmitting = false →
        s.timeRemaining = some 1 → unansweredCount s ≠ 0 →
        (step s (.countdownTick choice)).confirmPrompts = s.confirmPrompts + 1)
    ∧ (∀ (s : ComponentState) (choice : Bool),
        s.isSubmitting = false → s.timeRemaining = some 0 →
        (step s (.manualSubmit choice)).confirmPrompts = s.confirmPrompts) := by
  refine ⟨?_, ?_, ?_⟩
  · intro s choice hs hauto ht h0
    show (tickStep s choice).payloads = _ ∧ (tickStep s choice).confirmPrompts = _
    unfold tickStep
    rw [ht]
    simp only [if_pos rfl]
    unfold handleSubmitQuiz doSubmit
    simp [hs, hauto, h0]
  · intro s choice hs hauto ht hne
    show (tickStep s choice).confirmPrompts = _
    unfold tickStep
    rw [ht]
    simp only [if_pos rfl]
    unfold handleSubmitQuiz doSubmit
    have hne2 : (unansweredCount s == 0) = false := by
      simp [hne]
    simp [hs, hauto, hne2]
    cases choice <;> simp
  · intro s choice hs ht
    show (handleSubmitQuiz s s.timeRemaining choice).confirmPrompts = s.confirmPrompts
    rw [ht]
    unfold handleSubmitQuiz doSubmit
    simp [hs]

/-- C7, witness: the amended expiry behaviour applied to a fully answered
session with 1 second left. -/
theorem C7_witness :
    unansweredCount (initState true true answeredSheet (some 1)) = 0
    ∧ (step (initState true true answeredSheet (some 1)) (.countdownTick true)).payloads
      = (initState true true answeredSheet (some 1)).payloads
        ++ [{ responses := payloadResponses (initState true true answeredSheet (some 1)).selectedAnswers,
              violations := (initState true true answeredSheet (some 1)).violations,
              status := "submitted" }] :=
  ⟨by decide,
   (C7_amended.1 (initState true true answeredSheet (some 1)) true rfl rfl rfl (by decide)).1⟩

/-- C8: in every session and trace the recorded host-command sequence never
shows `close-quiz-window` before an `allow-quiz-exit` has been issued, a
scheduled close always follows the fixed 4-second confirmation delay, and
the release command's main-process handler disables kiosk, exits fullscreen,
makes the window closable and removes always-on-top. -/
theorem C8_release_ordering :
    (∀ (lockdown electron : Bool) (answers : List SelectedAnswer)
        (timer : Option Nat) (tr : List Event),
        releaseBeforeClose
          (run (initState lockdown electron answers timer) tr).commandLog false = true
        ∧ closeDelayOk
          (run (initState lockdown electron answers timer) tr).pendingClose = true)
    ∧ CLOSE_DELAY_MS = 4000
    ∧ (∀ w : HostWindow, allowQuizExitHandler w =
        if w.destroyed then w
        else { w with allowExit := true, kiosk := false, fullscreen := false,
                      closable := true, alwaysOnTop := false }) := by
  refine ⟨?_, rfl, fun w => rfl⟩
  intro lockdown electron answers timer tr
  have h := releaseInv_run tr _ (releaseInv_init lockdown electron answers timer)
  exact ⟨h.1, h.2.2⟩

/-- C9, counterexample: the violation log is *not* immune to deletion — the
Clear History click resets it.  One host-reported violation is appended;
after Clear History the log is empty, so the payload of a later submission
carries no violations even though one classified violation occurred
(`warningCount` is still 1: clearing leaves the counter untouched). -/
theorem C9_counterexample :
    (run demoInit [.violationBatch [hostBlurViolation]]).violations
      = [hostBlurRecord]
    ∧ (run demoInit c9CounterTrace).violations = []
    ∧ (run demoInit c9CounterTrace).warningCount = 1
    ∧ (run demoInit c9CounterTrace).payloads.map SubmitPayload.violations
      = [[]] := by decide

/-- C9, amended: violation records are only ever appended (an accepted batch
appends exactly the records it delivered, every other event except Clear
History leaves the log unchanged), but the Clear History action resets the
log to empty — it is not presentation-only, so a submission after clearing
omits the cleared records; clearing does leave `warningCount` and the
warning history untouched. -/
theorem C9_amended :
    (∀ (s : ComponentState) (batch : List RawViolation),
        (step s (.violationBatch batch)).violations
          = s.violations
            ++ (if guardPasses s then batch.filterMap RawViolation.record else []))
    ∧ (∀ s : ComponentState, step s .clearHistory = { s with violations := [] })
    ∧ (∀ s : ComponentState,
        (step s .clearHistory).warningCount = s.warningCount
        ∧ (step s .clearHistory).shownWarnings = s.shownWarnings)
    ∧ (∀ s : ComponentState, (step s .autoSubmitFire).violations = s.violations)
    ∧ (∀ (s : ComponentState) (c : Bool),
        (step s (.countdownTick c)).violations = s.violations)
    ∧ (∀ (s : ComponentState) (c : Bool),
        (step s (.manualSubmit c)).violations = s.violations)
    ∧ (∀ (s : ComponentState) (ok : Bool) (sc mx aid : Nat),
        (step s (.submitResolve ok sc mx aid)).violations = s.violations)
    ∧ (∀ s : ComponentState, (step s .hideWarningFire).violations = s.violations)
    ∧ (∀ s : ComponentState, (step s .closeTimerFire).violations = s.violations) := by
  refine ⟨?_, ?_, ?_, ?_, ?_, ?_, ?_, ?_, ?_⟩
  · intro s batch
    exact pb_violations s batch s
  · intro s
    rfl
  · intro s
    exact ⟨rfl, rfl⟩
  · intro s
    exact (fireTimers_fields _ s).2.2.2.1
  · intro s c
    exact (tick_fields s c).2.2.2.1
  · intro s c
    exact (hsq_fields s s.timeRemaining c).2.2.2.1
  · intro s ok sc mx aid
    exact (resolve_fields s ok sc mx aid).2.1
  · intro s
    rfl
  · intro s
    exact (close_fields s).2.1

/-- C10: the endpoint's `maxScore` (and score) range only over questions
named by the submitted responses — a question no response names contributes
to neither total, a response naming an unknown question id is silently
skipped — and the client payload omits every question answered only by a
`null` MCQ selection. -/
theorem C10_responses_scope :
    (∀ (q : StoredQuestion) (qs : List StoredQuestion) (rs : List ReqResponse),
        (∀ r ∈ rs, r.questionId ≠ q.id) →
        scoreResponses (q :: qs) rs = scoreResponses qs rs)
    ∧ (∀ (qs : List StoredQuestion) (r : ReqResponse) (rs : List ReqResponse),
        (∀ qq ∈ qs, qq.id ≠ r.questionId) →
        scoreResponses qs (r :: rs) = scoreResponses qs rs)
    ∧ (∀ (answers : List SelectedAnswer) (qid : Nat),
        (∀ a ∈ answers, a.questionId = qid → a.optionId = JsOpt.null) →
        ∀ ro ∈ payloadResponses answers, ro.questionId ≠ qid) := by
  refine ⟨?_, ?_, payload_skip_null⟩
  · intro q qs rs h
    exact score_foldl_skip q qs rs (0, 0) h
  · intro qs r rs h
    unfold scoreResponses
    simp only [List.foldl_cons]
    rw [scoreStep_no_question qs (0, 0) r h]

/-- C10, witness: adding `demoExtraQuestion` — which no response of
`demoBody` names — to the question list leaves both score and maxScore of
the round-trip example unchanged. -/
theorem C10_witness :
    (∀ r ∈ demoBody.responses, r.questionId ≠ demoExtraQuestion.id)
    ∧ scoreResponses (demoExtraQuestion :: demoQuestions) demoBody.responses
      = scoreResponses demoQuestions demoBody.responses :=
  ⟨by decide,
   C10_responses_scope.1 demoExtraQuestion demoQuestions demoBody.responses (by decide)⟩
